import Mathlib

/-!
Verification development for the automated-skeptics claim-verification
pipeline.  The Python source under `agents/oracle_agent.py`, `llm/manager.py`,
`llm/bias_detector.py` and `data/models.py` is shallowly embedded below:
Python floats are modelled as rationals, Python strings as Lean strings
manipulated through character lists (Python string operations are
character-based), fallible provider calls as `Except`-valued functions, and
the free-form metadata dictionaries / timing fields (wall-clock processing
time, timestamps), which no property here depends on, are not modelled.
-/

namespace Skeptic

/-! ### Character-level string helpers mirroring Python string methods -/

/-- Python `str.lower()` (ASCII-relevant part). -/
def pyLower (s : String) : String := ⟨s.data.map Char.toLower⟩

/-- Python `str.upper()` (ASCII-relevant part). -/
def pyUpper (s : String) : String := ⟨s.data.map Char.toUpper⟩

/-- Characters counted as whitespace by Python `str.strip()` / `str.split()`. -/
def pyIsSpace (c : Char) : Bool := c.isWhitespace

def trimChars (l : List Char) : List Char :=
  ((l.dropWhile pyIsSpace).reverse.dropWhile pyIsSpace).reverse

/-- Python `str.strip()`. -/
def pyStrip (s : String) : String := ⟨trimChars s.data⟩

/-- Does `pat` occur as a contiguous sub-list of `l`? -/
def containsSub (pat : List Char) : List Char → Bool
  | [] => pat.isEmpty
  | l@(_ :: t) => pat.isPrefixOf l || containsSub pat t

/-- Python `pat in s` (substring containment). -/
def pyContains (s pat : String) : Bool := containsSub pat.data s.data

/-- Python `s.startswith(pre)`. -/
def pyStartsWith (s pre : String) : Bool := pre.data.isPrefixOf s.data

/-- Split a character list at every separator character (Python
`str.split(sep)` semantics: empty pieces are kept). -/
def splitByPred (p : Char → Bool) : List Char → List (List Char)
  | [] => [[]]
  | c :: rest =>
    let r := splitByPred p rest
    if p c then [] :: r
    else
      match r with
      | h :: t => (c :: h) :: t
      | [] => [[c]]

/-- Python `s.split(sep)` for a one-character separator (keeps empty pieces). -/
def pySplitChar (c : Char) (s : String) : List String :=
  (splitByPred (· = c) s.data).map (⟨·⟩)

/-- Python `s.split()` with no argument: split on whitespace runs, dropping
empty pieces. -/
def pySplitWs (s : String) : List String :=
  ((splitByPred pyIsSpace s.data).filter (· ≠ [])).map (⟨·⟩)

def afterChar (sep : Char) : List Char → List Char
  | [] => []
  | c :: rest => if c = sep then rest else afterChar sep rest

/-- Python `line.split(":", 1)[1]`: everything after the first colon (the
callers below only apply it to lines that do contain a colon). -/
def pyAfterColon (s : String) : String := ⟨afterChar ':' s.data⟩

/-- Python slice `s[:n]` (character count). -/
def pyTake (n : Nat) (s : String) : String := ⟨s.data.take n⟩

/-! ### Data model (`data/models.py`) -/

/-- Source dataclass from `data/models.py` (publication date unused by the
core and not modelled). -/
structure Source where
  url : String
  title : String
  content : String := ""
  source_type : String := "web"
  credibility_score : ℚ := 1/2
  relevance_score : ℚ := 0
  deriving DecidableEq, Repr

/-- Evidence dataclass from `data/models.py`.  The `supports_claim` field is
tri-state in practice (the LLM path stores `None`), hence `Option Bool`. -/
structure Evidence where
  source : Source
  supporting_text : String
  supports_claim : Option Bool
  confidence : ℚ
  extraction_method : String := "manual"
  deriving DecidableEq, Repr

inductive VerdictType where
  | SUPPORTED
  | CONTRADICTED
  | INSUFFICIENT_EVIDENCE
  | ERROR
  deriving DecidableEq, Repr

/-- The `.value` string of each `VerdictType` enum member. -/
def VerdictType.value : VerdictType → String
  | .SUPPORTED => "SUPPORTED"
  | .CONTRADICTED => "CONTRADICTED"
  | .INSUFFICIENT_EVIDENCE => "INSUFFICIENT_EVIDENCE"
  | .ERROR => "ERROR"

/-- Claim dataclass: only the fields the Oracle reads (`text` and the
attached `sources`). -/
structure Claim where
  text : String
  sources : List Source := []
  deriving DecidableEq, Repr

/-- VerificationResult dataclass (processing time / timestamp /
sub-claim results not modelled). -/
structure VerificationResult where
  original_claim : String
  verdict : String
  confidence : ℚ
  evidence_summary : String
  sources : List Source := []
  error_message : Option String := none
  deriving DecidableEq, Repr

/-! ### Basic (heuristic) evidence analysis, `agents/oracle_agent.py` -/

/-- Python `set(s.lower().split())`: the deduplicated lower-cased words.
Only cardinality and membership of the set are used downstream; `dedup`
provides both (Python set iteration order is unspecified anyway). -/
def setWords (s : String) : List String := (pySplitWs (pyLower s)).dedup

/-- Cardinality of `claimWords ∩ contentWords` for already-deduplicated
`claimWords`. -/
def overlapCount (claimWords contentWords : List String) : Nat :=
  (claimWords.filter (fun w => decide (w ∈ contentWords))).length

/-- The four negation markers of `_assess_support_basic`
(`not` / `no` / `never` / `false`). -/
def negationMarkers : List String := ["not", "no", "never", "false"]

/-- Regex word character (for the `\b` boundary in the negation patterns). -/
def isWordChar (c : Char) : Bool := c.isAlphanum || c = '_'

/-- Match the regex fragment `<neg>\s+<w>` at the head of `l`: the marker,
at least one whitespace character, then `w`. -/
def matchNegAt (neg w : List Char) (l : List Char) : Bool :=
  neg.isPrefixOf l &&
    (match l.drop neg.length with
     | c :: rest => pyIsSpace c && w.isPrefixOf ((c :: rest).dropWhile pyIsSpace)
     | [] => false)

/-- Search for `\b<neg>\s+<w>` anywhere in the text; the boundary flag says
whether the current position follows a non-word character (or the start). -/
def searchNeg (neg w : List Char) : List Char → Bool → Bool
  | [], _ => false
  | l@(c :: t), atBoundary =>
    (atBoundary && matchNegAt neg w l) || searchNeg neg w t (!isWordChar c)

/-- Python builds, for each marker, the pattern
`r"\b<marker>\s+" + "|".join(claim_words)` and calls `re.search` on the
lower-cased content.  By regex alternation precedence this pattern matches
either `\b<marker>\s+<first word>` or ANY other claim word occurring
anywhere as a substring.  Python iterates the claim-word set in an
unspecified order; this model uses the order of the deduplicated word
list.  With no claim words the pattern degenerates to `\b<marker>\s+`,
which the empty `w1` below reproduces. -/
def hasContextualNegation (claimWords : List String) (contentLower : String) : Bool :=
  let w1 := (claimWords.headD "").data
  (claimWords.tail.any (fun w => containsSub w.data contentLower.data)) ||
    negationMarkers.any (fun neg => searchNeg neg.data w1 contentLower.data true)

/-- `OracleAgent._assess_support_basic`: keyword-overlap heuristic.  Note
that it returns a definite `Bool` — `False` both for empty content and for
insufficient overlap — not a tri-state value. -/
def assessSupportBasic (claim content : String) : Bool :=
  if content = "" then false
  else
    let content_lower := pyLower content
    let claim_words := setWords claim
    let content_words := setWords content
    let overlap_ratio : ℚ :=
      if claim_words ≠ [] then (overlapCount claim_words content_words : ℚ) / claim_words.length
      else 0
    decide (overlap_ratio > 2/5) && !hasContextualNegation claim_words content_lower

/-- `OracleAgent._calculate_evidence_confidence_basic`. -/
def calculateEvidenceConfidenceBasic (claim content : String) (credibility_score : ℚ) : ℚ :=
  if content = "" then 0
  else
    let claim_words := setWords claim
    let content_words := setWords content
    let overlap_ratio : ℚ :=
      if claim_words ≠ [] then (overlapCount claim_words content_words : ℚ) / claim_words.length
      else 0
    let content_length_factor : ℚ := min ((content.length : ℚ) / 500) 1
    min (overlap_ratio * (1/2) + credibility_score * (3/10) + content_length_factor * (1/5)) 1

/-- `OracleAgent._extract_supporting_text_basic`. -/
def extractSupportingTextBasic (claim content : String) : String :=
  if content = "" then ""
  else
    let claim_words := setWords claim
    let sentences := pySplitChar '.' content
    let relevant := (sentences.filter (fun sentence =>
      let sentence_words := setWords sentence
      decide ((overlapCount claim_words sentence_words : ℚ) ≥
        min 2 ((claim_words.length : ℚ) * (3/10))))).map pyStrip
    String.intercalate ". " (relevant.take 2)

/-- `OracleAgent._basic_analyze_single_source`. -/
def basicAnalyzeSingleSource (claim : Claim) (source : Source) : Evidence :=
  { source := source
    supporting_text := extractSupportingTextBasic claim.text source.content
    supports_claim := some (assessSupportBasic claim.text source.content)
    confidence := calculateEvidenceConfidenceBasic claim.text source.content source.credibility_score
    extraction_method := "basic_analysis" }

/-- `OracleAgent._basic_analyze_evidence`. -/
def basicAnalyzeEvidence (claim : Claim) (sources : List Source) : List Evidence :=
  sources.map (basicAnalyzeSingleSource claim)

/-! ### LLM response parsing, `OracleAgent._parse_llm_evidence_analysis` -/

/-- The mutable analysis dictionary built by the parser. -/
structure EvidenceAnalysis where
  assessment : String := "NEUTRAL"
  supports : Option Bool := none
  confidence : ℚ := 1/2
  relevant_text : String := ""
  reasoning : String := ""
  deriving DecidableEq, Repr

def digitsToNat (l : List Char) : Nat :=
  l.foldl (fun n c => n * 10 + (c.toNat - ('0').toNat)) 0

/-- Model of Python `float(s)` restricted to plain decimal literals
(optional sign, digits, optional fractional part); other inputs yield
`none`, matching the `except: pass` in the source that keeps the default. -/
def parseDecimal? (s : String) : Option ℚ :=
  let signRest : ℚ × List Char :=
    match s.data with
    | '-' :: r => (-1, r)
    | '+' :: r => (1, r)
    | r => (1, r)
  let sign := signRest.1
  let rest := signRest.2
  let intPart := rest.takeWhile Char.isDigit
  let afterInt := rest.drop intPart.length
  match afterInt with
  | [] => if intPart = [] then none else some (sign * digitsToNat intPart)
  | '.' :: fr =>
    if fr.all Char.isDigit && !(intPart = [] && fr = []) then
      some (sign * ((digitsToNat intPart : ℚ) + (digitsToNat fr : ℚ) / (10 ^ fr.length)))
    else none
  | _ => none

/-- One iteration of the parser loop: strip the line, dispatch on the four
recognised labels, ignore anything else. -/
def parseLine (a : EvidenceAnalysis) (line : String) : EvidenceAnalysis :=
  let line := pyStrip line
  if pyStartsWith line "ASSESSMENT:" then
    let assessment := pyUpper (pyStrip (pyAfterColon line))
    { a with
      assessment := assessment
      supports :=
        if assessment = "SUPPORTS" then some true
        else if assessment = "CONTRADICTS" then some false
        else none }
  else if pyStartsWith line "CONFIDENCE:" then
    match parseDecimal? (pyStrip (pyAfterColon line)) with
    | some confidence => { a with confidence := max 0 (min 1 confidence) }
    | none => a
  else if pyStartsWith line "RELEVANT_TEXT:" then
    { a with relevant_text := pyStrip (pyAfterColon line) }
  else if pyStartsWith line "REASONING:" then
    { a with reasoning := pyStrip (pyAfterColon line) }
  else a

/-- `OracleAgent._parse_llm_evidence_analysis`. -/
def parseLLMEvidenceAnalysis (response_text : String) : EvidenceAnalysis :=
  (pySplitChar '\n' (pyStrip response_text)).foldl parseLine {}

/-! ### Verdict synthesis, `OracleAgent._generate_verdict` and helpers -/

/-- Evidence entries with `supports_claim is True`. -/
def supportingOf (l : List Evidence) : List Evidence :=
  l.filter (fun e => decide (e.supports_claim = some true))

/-- Evidence entries with `supports_claim is False`. -/
def contradictingOf (l : List Evidence) : List Evidence :=
  l.filter (fun e => decide (e.supports_claim = some false))

/-- Evidence entries with `supports_claim is None`. -/
def neutralOf (l : List Evidence) : List Evidence :=
  l.filter (fun e => decide (e.supports_claim = none))

/-- `OracleAgent._calculate_weighted_evidence_score`: accumulate
`confidence × credibility`, boosting ensemble-produced entries by 1.2. -/
def calculateWeightedEvidenceScore (evidence_list : List Evidence) : ℚ :=
  evidence_list.foldl
    (fun total_score e =>
      let base_score := e.confidence * e.source.credibility_score
      let base_score :=
        if e.extraction_method = "ensemble_analysis" then base_score * (12/10) else base_score
      total_score + base_score) 0

/-- `OracleAgent._calibrate_confidence`.  Only ever called with a non-empty
evidence list (rational division by zero would yield 0 otherwise). -/
def calibrateConfidence (support_ratio : ℚ) (evidence_list : List Evidence) : ℚ :=
  let base_confidence := |support_ratio - 1/2| * 2
  let avg_evidence_confidence :=
    (evidence_list.map Evidence.confidence).sum / (evidence_list.length : ℚ)
  let quality_factor := avg_evidence_confidence
  let unique_sources := ((evidence_list.map (fun e => e.source.url)).dedup).length
  let diversity_factor := min ((unique_sources : ℚ) / 3) 1
  let calibrated_confidence :=
    base_confidence * (1/2) + quality_factor * (3/10) + diversity_factor * (1/5)
  min calibrated_confidence (19/20)

/-- `OracleAgent._generate_verdict`. -/
def generateVerdict (evidence_list : List Evidence) : VerdictType × ℚ :=
  if evidence_list = [] then (.INSUFFICIENT_EVIDENCE, 0)
  else
    let supporting_evidence := supportingOf evidence_list
    let contradicting_evidence := contradictingOf evidence_list
    let supporting_score := calculateWeightedEvidenceScore supporting_evidence
    let contradicting_score := calculateWeightedEvidenceScore contradicting_evidence
    let total_score := supporting_score + contradicting_score
    if total_score = 0 then (.INSUFFICIENT_EVIDENCE, 0)
    else
      let support_ratio := supporting_score / total_score
      let confidence := calibrateConfidence support_ratio evidence_list
      if support_ratio ≥ 7/10 ∧ supporting_evidence ≠ [] then
        (.SUPPORTED, min (confidence * (9/10)) (19/20))
      else if support_ratio ≤ 3/10 ∧ contradicting_evidence ≠ [] then
        (.CONTRADICTED, min ((1 - confidence) * (9/10)) (19/20))
      else
        (.INSUFFICIENT_EVIDENCE, 1/2)

/-- Python `max(list, key=...)` on a non-empty list: first maximal element. -/
def maxByKeyFirst (key : Evidence → ℚ) (e : Evidence) (rest : List Evidence) : Evidence :=
  rest.foldl (fun best x => if key x > key best then x else best) e

/-- `OracleAgent._create_evidence_summary`. -/
def createEvidenceSummary (enable_ensemble : Bool) (evidence_list : List Evidence)
    (verdict : VerdictType) : String :=
  if evidence_list = [] then "No evidence found to evaluate this claim."
  else
    let supporting_evidence := supportingOf evidence_list
    let contradicting_evidence := contradictingOf evidence_list
    let neutral_count := (neutralOf evidence_list).length
    let analysis_method := if enable_ensemble then "ensemble voting" else "LLM analysis"
    let part1 := "Using " ++ analysis_method ++ ", this claim is " ++ verdict.value ++ "."
    let part2 := "Analyzed " ++ toString evidence_list.length ++ " sources: " ++
      toString supporting_evidence.length ++ " supporting, " ++
      toString contradicting_evidence.length ++ " contradicting, " ++
      toString neutral_count ++ " neutral."
    let key := fun (e : Evidence) => e.confidence * e.source.credibility_score
    let supPart : List String :=
      match supporting_evidence with
      | [] => []
      | e :: rest =>
        let best := maxByKeyFirst key e rest
        if best.supporting_text ≠ "" then
          ["Key supporting evidence: \"" ++ pyTake 200 best.supporting_text ++ "...\""]
        else []
    let conPart : List String :=
      match contradicting_evidence with
      | [] => []
      | e :: rest =>
        let best := maxByKeyFirst key e rest
        if best.supporting_text ≠ "" then
          ["Key contradicting evidence: \"" ++ pyTake 200 best.supporting_text ++ "...\""]
        else []
    String.intercalate " " ([part1, part2] ++ supPart ++ conPart)

/-! ### The Oracle entry point, `OracleAgent.process`

The provider-facing part of evidence analysis is abstracted as functions of
type `Gen` returning either a raw response text or the message of the raised
exception (`GenerationError` etc.); everything after the provider call is
embedded directly.  `genEnsemble` stands for `llm_manager.generate_ensemble`
and `genSingle` for `llm_manager.generate`. -/

abbrev Gen := Claim → Source → Except String String

/-- Oracle configuration bits read in `OracleAgent.__init__`:
`has_llm` (some provider is available) and `enable_ensemble`. -/
structure OracleConfig where
  hasLLM : Bool
  enableEnsemble : Bool
  deriving DecidableEq, Repr

/-- `OracleAgent._analyze_single_source`: one provider call, parsed into an
Evidence; a raised generation error propagates. -/
def analyzeSingleSource (gen : Gen) (claim : Claim) (source : Source) : Except String Evidence :=
  match gen claim source with
  | .error e => .error e
  | .ok response_text =>
    let analysis := parseLLMEvidenceAnalysis response_text
    .ok { source := source
          supporting_text := analysis.relevant_text
          supports_claim := analysis.supports
          confidence := analysis.confidence
          extraction_method := "llm_analysis" }

/-- `OracleAgent._llm_analyze_evidence`: per source, try the LLM analysis
and fall back to the basic heuristic if it raises. -/
def llmAnalyzeEvidence (gen : Gen) (claim : Claim) (sources : List Source) : List Evidence :=
  sources.map (fun source =>
    match analyzeSingleSource gen claim source with
    | .ok evidence => evidence
    | .error _ => basicAnalyzeSingleSource claim source)

/-- `OracleAgent._ensemble_analyze_evidence`: per source, try the ensemble
call; on failure fall back to `_analyze_single_source` — whose own failure
is NOT caught here and propagates out of the loop. -/
def ensembleAnalyzeEvidence (genEnsemble genSingle : Gen) (claim : Claim) :
    List Source → Except String (List Evidence)
  | [] => .ok []
  | source :: rest =>
    let evidenceE : Except String Evidence :=
      match genEnsemble claim source with
      | .ok response_text =>
        let analysis := parseLLMEvidenceAnalysis response_text
        .ok { source := source
              supporting_text := analysis.relevant_text
              supports_claim := analysis.supports
              confidence := analysis.confidence
              extraction_method := "ensemble_analysis" }
      | .error _ => analyzeSingleSource genSingle claim source
    match evidenceE with
    | .error e => .error e
    | .ok evidence =>
      match ensembleAnalyzeEvidence genEnsemble genSingle claim rest with
      | .error e => .error e
      | .ok evs => .ok (evidence :: evs)

/-- The evidence-analysis dispatch inside `OracleAgent.process`. -/
def analysisStage (cfg : OracleConfig) (genEnsemble genSingle : Gen) (claim : Claim)
    (sources : List Source) : Except String (List Evidence) :=
  if cfg.enableEnsemble && cfg.hasLLM && decide (sources.length > 1) then
    ensembleAnalyzeEvidence genEnsemble genSingle claim sources
  else if cfg.hasLLM then .ok (llmAnalyzeEvidence genSingle claim sources)
  else .ok (basicAnalyzeEvidence claim sources)

/-- `OracleAgent._create_insufficient_evidence_result`. -/
def createInsufficientEvidenceResult (claim : Claim) : VerificationResult :=
  { original_claim := claim.text
    verdict := VerdictType.INSUFFICIENT_EVIDENCE.value
    confidence := 0
    evidence_summary := "No sources found to evaluate this claim."
    sources := []
    error_message := none }

/-- `OracleAgent._create_error_result`. -/
def createErrorResult (claim : Claim) (error_message : String) : VerificationResult :=
  { original_claim := claim.text
    verdict := VerdictType.ERROR.value
    confidence := 0
    evidence_summary := "Error processing claim: " ++ error_message
    sources := []
    error_message := some error_message }

/-- `OracleAgent.process`: the sole external entry point.  The Python
`try/except` wrapping the body is modelled by the `Except` result of the
analysis stage (the verdict/summary stages are pure and total); a caught
exception becomes the ERROR result. -/
def process (cfg : OracleConfig) (genEnsemble genSingle : Gen) (claim : Claim) :
    VerificationResult :=
  let sources := claim.sources
  if sources = [] then createInsufficientEvidenceResult claim
  else
    match analysisStage cfg genEnsemble genSingle claim sources with
    | .error e => createErrorResult claim e
    | .ok evidence_list =>
      let vc := generateVerdict evidence_list
      { original_claim := claim.text
        verdict := vc.1.value
        confidence := vc.2
        evidence_summary := createEvidenceSummary cfg.enableEnsemble evidence_list vc.1
        sources := sources
        error_message := none }

/-! ### Bias risk assessment, `LLMManager._assess_bias_risk` (`llm/manager.py`)

The keyword list is `bias_patterns["political_sensitive"]` from
`LLMManager.__init__`; the compound patterns are the `high_risk_patterns`
regexes `A.*B` (Python `re` without DOTALL: `.` does not cross a newline). -/

def politicalSensitive : List String :=
  ["berlin wall", "tiananmen square", "hong kong protests", "taiwan",
   "tibet", "xinjiang", "uyghur", "democracy china", "human rights china"]

/-- The three `high_risk_patterns`, each of the shape `A.*B`. -/
def highRiskPatterns : List (String × String) :=
  [("berlin wall", "1989"), ("tiananmen", "1989"), ("hong kong", "protest")]

/-- `re.search("A.*B", s)`: some occurrence of `A` followed, with no
intervening newline, by an occurrence of `B`. -/
def searchDotStar (a b : List Char) : List Char → Bool
  | [] => false
  | l@(_ :: t) =>
    (a.isPrefixOf l && containsSub b ((l.drop a.length).takeWhile (· ≠ '\n'))) ||
      searchDotStar a b t

def matchesDotStar (a b : String) (s : String) : Bool :=
  searchDotStar a.data b.data s.data

/-- The keyword-counting loop of `_assess_bias_risk`. -/
def countSensitiveMatches (content_lower : String) : Nat :=
  politicalSensitive.foldl
    (fun sensitive_matches keyword =>
      if pyContains content_lower keyword then sensitive_matches + 1 else sensitive_matches) 0

/-- The pattern loop of `_assess_bias_risk`: return at the first matching
compound pattern. -/
def anyHighRisk : List (String × String) → String → Bool
  | [], _ => false
  | p :: rest, content_lower =>
    if matchesDotStar p.1 p.2 content_lower then true else anyHighRisk rest content_lower

/-- `LLMManager._assess_bias_risk`. -/
def assessBiasRisk (content : String) : ℚ :=
  let content_lower := pyLower content
  let sensitive_matches := countSensitiveMatches content_lower
  if sensitive_matches = 0 then 0
  else if anyHighRisk highRiskPatterns content_lower then 4/5
  else min ((sensitive_matches : ℚ) * (3/10)) (7/10)

/-! ### Provider selection, `LLMManager._select_provider` and
`LLMManager._select_bias_aware_provider`

The registry `self.providers` is modelled by the list of its registered
logical names; selecting a provider handle is modelled by returning its
name.  An absent / empty (falsy) explicit name or agent name is `none`. -/

def safeProviders : List String := ["claude_default", "openai_default", "gemini_default"]

def preferenceOrder : List String :=
  ["ollama_default", "claude_default", "gemini_default", "openai_default"]

/-- First name of `order` that is registered. -/
def firstRegistered (providers : List String) : List String → Option String
  | [] => none
  | p :: rest => if p ∈ providers then some p else firstRegistered providers rest

/-- Steps 2–3 of `_select_provider`: agent-specific mapping, then the fixed
preference order. -/
def selectProviderFrom (providers : List String) (agent_name : Option String) : Option String :=
  match agent_name with
  | some a =>
    if (a ++ "_llm") ∈ providers then some (a ++ "_llm")
    else firstRegistered providers preferenceOrder
  | none => firstRegistered providers preferenceOrder

/-- `LLMManager._select_provider` (original logic): explicit name first,
then agent mapping, then the preference order. -/
def selectProvider (providers : List String) (agent_name provider_name : Option String) :
    Option String :=
  match provider_name with
  | some p => if p ∈ providers then some p else selectProviderFrom providers agent_name
  | none => selectProviderFrom providers agent_name

/-- `LLMManager._select_bias_aware_provider`: for low bias risk defer to the
original logic; otherwise pick the first registered safe provider, falling
back to the original logic when none is registered. -/
def selectBiasAwareProvider (providers : List String) (agent_name provider_name : Option String)
    (bias_risk : ℚ) : Option String :=
  if bias_risk < 3/10 then selectProvider providers agent_name provider_name
  else
    match firstRegistered providers safeProviders with
    | some p => some p
    | none => selectProvider providers agent_name provider_name

/-! ### Spec-side formulation of the bias risk score

`biasRiskSpecForm` restates the specification's closed form of the risk
score ("if zero hits, risk = 0; if a high-risk compound pattern matches,
risk = 0.8; otherwise min(0.3 × hit_count, 0.7)") with the hit count as a
filter cardinality and the pattern check as a plain disjunction, to be
compared with the loop-structured `assessBiasRisk` from the source. -/

def biasRiskSpecForm (content : String) : ℚ :=
  let lower := pyLower content
  let hits := (politicalSensitive.filter (fun kw => pyContains lower kw)).length
  if hits = 0 then 0
  else if highRiskPatterns.any (fun p => matchesDotStar p.1 p.2 lower) then 4/5
  else min ((hits : ℚ) * (3/10)) (7/10)

/-- The per-entry contribution to `calculateWeightedEvidenceScore`. -/
def evidenceTerm (e : Evidence) : ℚ :=
  let base_score := e.confidence * e.source.credibility_score
  if e.extraction_method = "ensemble_analysis" then base_score * (12/10) else base_score

/-! ### Concrete inputs used by individual claims below -/

def evAllTrueZeroConf : Evidence :=
  { source := { url := "u1", title := "a", credibility_score := 1/2 }
    supporting_text := ""
    supports_claim := some true
    confidence := 0
    extraction_method := "llm_analysis" }

def evSupStrong : Evidence :=
  { source := { url := "u1", title := "a", credibility_score := 1/2 }
    supporting_text := ""
    supports_claim := some true
    confidence := 1
    extraction_method := "llm_analysis" }

def evConStrong : Evidence :=
  { source := { url := "u2", title := "b", credibility_score := 1/2 }
    supporting_text := ""
    supports_claim := some false
    confidence := 1
    extraction_method := "llm_analysis" }

def evR30sup : Evidence :=
  { source := { url := "u1", title := "a", credibility_score := 3/10 }
    supporting_text := ""
    supports_claim := some true
    confidence := 1
    extraction_method := "llm_analysis" }

def evR30con : Evidence :=
  { source := { url := "u2", title := "b", credibility_score := 7/10 }
    supporting_text := ""
    supports_claim := some false
    confidence := 1
    extraction_method := "llm_analysis" }

/-- Contradicted scenario with support ratio 0.3: the supporting and
contradicting credibilities weight the two sides 0.3 / 0.7. -/
def evListRatio30 : List Evidence := [evR30sup, evR30con]

def evR10sup : Evidence :=
  { source := { url := "u1", title := "a", credibility_score := 1/10 }
    supporting_text := ""
    supports_claim := some true
    confidence := 1
    extraction_method := "llm_analysis" }

def evR10con : Evidence :=
  { source := { url := "u2", title := "b", credibility_score := 9/10 }
    supporting_text := ""
    supports_claim := some false
    confidence := 1
    extraction_method := "llm_analysis" }

/-- Same shape with support ratio 0.1 (more decisively contradicted);
the per-evidence confidences and the set of distinct source URLs agree
with `evListRatio30`. -/
def evListRatio10 : List Evidence := [evR10sup, evR10con]

/-- A generator for which every provider call raises a generation error. -/
def genAlwaysFail : Gen := fun _ _ => .error "GenerationError: all providers failed"

def srcApple1 : Source := { url := "u1", title := "a", content := "apple was founded in 1976" }

def srcApple2 : Source := { url := "u2", title := "b", content := "apple was founded in 1976" }

def claimApple : Claim := { text := "apple was founded in 1976", sources := [srcApple1, srcApple2] }

def srcEmptyContent : Source := { url := "u", title := "t", content := "" }

def claimNoSources : Claim := { text := "apple was founded in 1976", sources := [] }

def cfgEnsemble : OracleConfig := { hasLLM := true, enableEnsemble := true }

def cfgSingle : OracleConfig := { hasLLM := true, enableEnsemble := false }

/-! ### Helper lemmas -/

theorem foldl_add_eq (f : Evidence → ℚ) (l : List Evidence) : ∀ (init : ℚ),
    List.foldl (fun acc e => acc + f e) init l = init + (l.map f).sum := by
  induction l with
  | nil => intro init; simp
  | cons e t ih =>
    intro init
    simp only [List.foldl_cons, List.map_cons, List.sum_cons, ih]
    ring

theorem weightedScore_eq_sum (l : List Evidence) :
    calculateWeightedEvidenceScore l = (l.map evidenceTerm).sum := by
  have h := foldl_add_eq evidenceTerm l 0
  rw [zero_add] at h
  exact h

theorem evidenceTerm_nonneg (e : Evidence) (h1 : 0 ≤ e.confidence)
    (h2 : 0 ≤ e.source.credibility_score) : 0 ≤ evidenceTerm e := by
  simp only [evidenceTerm]
  split
  · exact mul_nonneg (mul_nonneg h1 h2) (by norm_num)
  · exact mul_nonneg h1 h2

theorem evidenceTerm_pos (e : Evidence)
    (h : 0 < e.confidence * e.source.credibility_score) : 0 < evidenceTerm e := by
  simp only [evidenceTerm]
  split
  · exact mul_pos h (by norm_num)
  · exact h

theorem weightedScore_nonneg (l : List Evidence)
    (h : ∀ e ∈ l, 0 ≤ e.confidence ∧ 0 ≤ e.source.credibility_score) :
    0 ≤ calculateWeightedEvidenceScore l := by
  rw [weightedScore_eq_sum]
  apply List.sum_nonneg
  intro x hx
  rcases List.mem_map.mp hx with ⟨e, he, rfl⟩
  exact evidenceTerm_nonneg e (h e he).1 (h e he).2

theorem weightedScore_pos (l : List Evidence) (hne : l ≠ [])
    (h : ∀ e ∈ l, 0 < e.confidence * e.source.credibility_score) :
    0 < calculateWeightedEvidenceScore l := by
  rw [weightedScore_eq_sum]
  apply List.sum_pos
  · intro x hx
    rcases List.mem_map.mp hx with ⟨e, he, rfl⟩
    exact evidenceTerm_pos e (h e he)
  · simpa using hne

theorem calibrateConfidence_le (r : ℚ) (l : List Evidence) :
    calibrateConfidence r l ≤ 19/20 := by
  simp only [calibrateConfidence]
  exact min_le_right _ _

theorem calibrateConfidence_nonneg (r : ℚ) (l : List Evidence)
    (h : ∀ e ∈ l, 0 ≤ e.confidence) : 0 ≤ calibrateConfidence r l := by
  simp only [calibrateConfidence]
  refine le_min ?_ (by norm_num)
  have h1 : (0:ℚ) ≤ |r - 1/2| * 2 := mul_nonneg (abs_nonneg _) (by norm_num)
  have h2 : (0:ℚ) ≤ (l.map Evidence.confidence).sum / (l.length : ℚ) := by
    apply div_nonneg
    · apply List.sum_nonneg
      intro x hx
      rcases List.mem_map.mp hx with ⟨e, he, rfl⟩
      exact h e he
    · positivity
  have h3 : (0:ℚ) ≤ min ((((l.map fun e => e.source.url).dedup.length : ℚ)) / 3) 1 :=
    le_min (by positivity) (by norm_num)
  have := add_nonneg (add_nonneg (mul_nonneg h1 (by norm_num : (0:ℚ) ≤ 1/2))
    (mul_nonneg h2 (by norm_num : (0:ℚ) ≤ 3/10))) (mul_nonneg h3 (by norm_num : (0:ℚ) ≤ 1/5))
  exact this

theorem generateVerdict_fst_ne_error (l : List Evidence) :
    (generateVerdict l).1 ≠ VerdictType.ERROR := by
  simp only [generateVerdict]
  split_ifs <;> simp

theorem verdict_value_eq_error (v : VerdictType) : v.value = "ERROR" ↔ v = .ERROR := by
  cases v <;> decide

/-! ### Claim theorems -/

/-- C2: for every evidence list whose per-evidence confidences and source
credibilities are nonnegative (they live in [0,1] in the data model), the
confidence produced by verdict generation lies in [0, 0.95]. -/
theorem C2_confidence_clamped (l : List Evidence)
    (h : ∀ e ∈ l, 0 ≤ e.confidence ∧ 0 ≤ e.source.credibility_score) :
    0 ≤ (generateVerdict l).2 ∧ (generateVerdict l).2 ≤ 19/20 := by
  have hcal_nn : ∀ r, 0 ≤ calibrateConfidence r l :=
    fun r => calibrateConfidence_nonneg r l (fun e he => (h e he).1)
  simp only [generateVerdict]
  split_ifs with h1 h2 h3 h4
  · exact ⟨le_refl 0, by norm_num⟩
  · exact ⟨le_refl 0, by norm_num⟩
  · refine ⟨le_min (mul_nonneg (hcal_nn _) (by norm_num)) (by norm_num), min_le_right _ _⟩
  · refine ⟨le_min (mul_nonneg ?_ (by norm_num)) (by norm_num), min_le_right _ _⟩
    have hle := calibrateConfidence_le (calculateWeightedEvidenceScore (supportingOf l) /
      (calculateWeightedEvidenceScore (supportingOf l) +
        calculateWeightedEvidenceScore (contradictingOf l))) l
    linarith
  · exact ⟨by norm_num, by norm_num⟩

/-- Witness for C2 at a concrete singleton evidence list. -/
theorem C2_confidence_clamped_witness :
    0 ≤ (generateVerdict [evSupStrong]).2 ∧ (generateVerdict [evSupStrong]).2 ≤ 19/20 :=
  C2_confidence_clamped [evSupStrong] (by
    intro e he
    simp only [List.mem_singleton] at he
    subst he
    constructor <;> norm_num [evSupStrong])

/-- C4 counterexample: a non-empty all-supporting evidence list with nonzero
credibility whose (zero) confidences make the weighted score vanish is judged
INSUFFICIENT_EVIDENCE, not SUPPORTED. -/
theorem C4_counterexample :
    ([evAllTrueZeroConf] ≠ ([] : List Evidence)) ∧
    (∀ e ∈ [evAllTrueZeroConf], e.supports_claim = some true ∧
      e.source.credibility_score ≠ 0) ∧
    (generateVerdict [evAllTrueZeroConf]).1 ≠ VerdictType.SUPPORTED := by
  refine ⟨by simp, ?_, ?_⟩
  · intro e he
    simp only [List.mem_singleton] at he
    subst he
    exact ⟨rfl, by norm_num [evAllTrueZeroConf]⟩
  · have hsup : supportingOf [evAllTrueZeroConf] = [evAllTrueZeroConf] := by
      simp [supportingOf, evAllTrueZeroConf, List.filter]
    have hcon : contradictingOf [evAllTrueZeroConf] = [] := by
      simp [contradictingOf, evAllTrueZeroConf, List.filter]
    have hws : calculateWeightedEvidenceScore [evAllTrueZeroConf] = 0 := by
      simp [calculateWeightedEvidenceScore, evAllTrueZeroConf]
    have hw0 : calculateWeightedEvidenceScore [] = 0 := rfl
    simp only [generateVerdict, hsup, hcon, hws, hw0]
    norm_num
    decide

/-- C4 (amended): for every non-empty evidence list in which every entry has
`supports_claim = true` and a positive confidence-times-credibility weight,
verdict generation returns SUPPORTED. -/
theorem C4_all_supporting (l : List Evidence) (hne : l ≠ [])
    (h : ∀ e ∈ l, e.supports_claim = some true ∧
      0 < e.confidence * e.source.credibility_score) :
    (generateVerdict l).1 = VerdictType.SUPPORTED := by
  have hsup : supportingOf l = l := by
    simp only [supportingOf]
    rw [List.filter_eq_self]
    intro e he
    simp [(h e he).1]
  have hcon : contradictingOf l = [] := by
    simp only [contradictingOf]
    rw [List.filter_eq_nil_iff]
    intro e he
    simp [(h e he).1]
  have hpos : 0 < calculateWeightedEvidenceScore (supportingOf l) := by
    rw [hsup]
    exact weightedScore_pos l hne (fun e he => (h e he).2)
  have hzero : calculateWeightedEvidenceScore (contradictingOf l) = 0 := by
    rw [hcon]
    rfl
  simp only [generateVerdict]
  rw [if_neg hne, hzero, add_zero, if_neg hpos.ne']
  rw [div_self hpos.ne']
  rw [if_pos ⟨by norm_num, by rw [hsup]; exact hne⟩]

/-- Witness for C4 (amended) at a concrete singleton evidence list. -/
theorem C4_all_supporting_witness :
    (generateVerdict [evSupStrong]).1 = VerdictType.SUPPORTED :=
  C4_all_supporting [evSupStrong] (by simp) (by
    intro e he
    simp only [List.mem_singleton] at he
    subst he
    exact ⟨rfl, by norm_num [evSupStrong]⟩)

/-- C5: evaluation of the code at two contradicted evidence lists that agree
on per-evidence confidences and distinct source URLs.  Dropping the support
ratio from 0.3 to 0.1 (more decisive contradiction) drops the reported
confidence from 0.33 to 0.15, because the CONTRADICTED branch computes
`min((1 - calibrated) * 0.9, 0.95)`, inverting the calibrated decisiveness. -/
theorem C5_code_eval :
    generateVerdict evListRatio30 = (VerdictType.CONTRADICTED, 33/100) ∧
    generateVerdict evListRatio10 = (VerdictType.CONTRADICTED, 3/20) ∧
    ((3 : ℚ)/20 < 33/100) := by
  refine ⟨?_, ?_, by norm_num⟩
  · have hne : ([evR30sup, evR30con] : List Evidence) ≠ [] := by simp
    have hsup : supportingOf [evR30sup, evR30con] = [evR30sup] := by
      simp [supportingOf, evR30sup, evR30con, List.filter]
    have hcon : contradictingOf [evR30sup, evR30con] = [evR30con] := by
      simp [contradictingOf, evR30sup, evR30con, List.filter]
    have hws : calculateWeightedEvidenceScore [evR30sup] = 3/10 := by
      simp [calculateWeightedEvidenceScore, evR30sup]
    have hwc : calculateWeightedEvidenceScore [evR30con] = 7/10 := by
      simp [calculateWeightedEvidenceScore, evR30con]
    have hcal : calibrateConfidence (3/10) [evR30sup, evR30con] = 19/30 := by
      simp [calibrateConfidence, evR30sup, evR30con, List.dedup]
      rw [abs_of_nonpos (by norm_num)]
      norm_num [min_def]
    simp only [evListRatio30, generateVerdict, hsup, hcon, hws, hwc]
    norm_num [hcal, hne]
  · have hne : ([evR10sup, evR10con] : List Evidence) ≠ [] := by simp
    have hsup : supportingOf [evR10sup, evR10con] = [evR10sup] := by
      simp [supportingOf, evR10sup, evR10con, List.filter]
    have hcon : contradictingOf [evR10sup, evR10con] = [evR10con] := by
      simp [contradictingOf, evR10sup, evR10con, List.filter]
    have hws : calculateWeightedEvidenceScore [evR10sup] = 1/10 := by
      simp [calculateWeightedEvidenceScore, evR10sup]
    have hwc : calculateWeightedEvidenceScore [evR10con] = 9/10 := by
      simp [calculateWeightedEvidenceScore, evR10con]
    have hcal : calibrateConfidence (1/10) [evR10sup, evR10con] = 5/6 := by
      simp [calibrateConfidence, evR10sup, evR10con, List.dedup]
      rw [abs_of_nonpos (by norm_num)]
      norm_num [min_def]
    simp only [evListRatio10, generateVerdict, hsup, hcon, hws, hwc]
    norm_num [hcal, hne]

/-- C10: a non-empty evidence list with positive total weighted score that
meets neither verdict threshold yields INSUFFICIENT_EVIDENCE with confidence
exactly 0.5, independent of per-evidence confidences and source diversity. -/
theorem C10_middle_band (l : List Evidence) (hne : l ≠ [])
    (hpos : 0 < calculateWeightedEvidenceScore (supportingOf l) +
      calculateWeightedEvidenceScore (contradictingOf l))
    (hs : ¬(calculateWeightedEvidenceScore (supportingOf l) /
      (calculateWeightedEvidenceScore (supportingOf l) +
        calculateWeightedEvidenceScore (contradictingOf l)) ≥ 7/10 ∧ supportingOf l ≠ []))
    (hc : ¬(calculateWeightedEvidenceScore (supportingOf l) /
      (calculateWeightedEvidenceScore (supportingOf l) +
        calculateWeightedEvidenceScore (contradictingOf l)) ≤ 3/10 ∧ contradictingOf l ≠ [])) :
    generateVerdict l = (VerdictType.INSUFFICIENT_EVIDENCE, 1/2) := by
  simp only [generateVerdict]
  rw [if_neg hne, if_neg hpos.ne', if_neg hs, if_neg hc]

/-- Witness for C10 at a concrete balanced evidence list (support ratio 1/2). -/
theorem C10_middle_band_witness :
    generateVerdict [evSupStrong, evConStrong] = (VerdictType.INSUFFICIENT_EVIDENCE, 1/2) := by
  have h1 : supportingOf [evSupStrong, evConStrong] = [evSupStrong] := by
    simp [supportingOf, evSupStrong, evConStrong, List.filter]
  have h2 : contradictingOf [evSupStrong, evConStrong] = [evConStrong] := by
    simp [contradictingOf, evSupStrong, evConStrong, List.filter]
  have h3 : calculateWeightedEvidenceScore [evSupStrong] = 1/2 := by
    simp [calculateWeightedEvidenceScore, evSupStrong]
  have h4 : calculateWeightedEvidenceScore [evConStrong] = 1/2 := by
    simp [calculateWeightedEvidenceScore, evConStrong]
  refine C10_middle_band [evSupStrong, evConStrong] (by simp) ?_ ?_ ?_
  · rw [h1, h2, h3, h4]; norm_num
  · rw [h1, h2, h3, h4]; norm_num
  · rw [h1, h2, h3, h4]; norm_num

/-- C1: when the analysis stage inside `OracleAgent.process` raises (modelled
by an `Except.error`), the entry point still returns a `VerificationResult` —
the ERROR-shaped one: verdict "ERROR", confidence 0, and both the error
message field and the evidence summary carrying the exception message.
(Totality of the Lean `process` models "never raises".) -/
theorem C1_error_result (cfg : OracleConfig) (ge gs : Gen) (claim : Claim) (e : String)
    (hne : claim.sources ≠ [])
    (h : analysisStage cfg ge gs claim claim.sources = .error e) :
    process cfg ge gs claim = createErrorResult claim e ∧
    (process cfg ge gs claim).verdict = "ERROR" ∧
    (process cfg ge gs claim).confidence = 0 ∧
    (process cfg ge gs claim).error_message = some e ∧
    (process cfg ge gs claim).evidence_summary = "Error processing claim: " ++ e := by
  have hp : process cfg ge gs claim = createErrorResult claim e := by
    simp only [process]
    rw [if_neg hne, h]
  exact ⟨hp, by rw [hp]; rfl, by rw [hp]; rfl, by rw [hp]; rfl, by rw [hp]; rfl⟩

/-- Witness for C1: in ensemble mode with two sources and every provider call
failing, the analysis stage raises and process returns the ERROR result. -/
theorem C1_error_result_witness :
    process cfgEnsemble genAlwaysFail genAlwaysFail claimApple =
      createErrorResult claimApple "GenerationError: all providers failed" :=
  (C1_error_result cfgEnsemble genAlwaysFail genAlwaysFail claimApple
    "GenerationError: all providers failed" (by simp [claimApple]) rfl).1

/-- C3: a claim with an empty source list yields the INSUFFICIENT_EVIDENCE
result with confidence 0 and the fixed "no sources" summary, and the result
does not depend on the generators (no evidence analysis is performed). -/
theorem C3_no_sources (cfg : OracleConfig) (ge gs ge2 gs2 : Gen) (claim : Claim)
    (h : claim.sources = []) :
    process cfg ge gs claim = createInsufficientEvidenceResult claim ∧
    (process cfg ge gs claim).verdict = "INSUFFICIENT_EVIDENCE" ∧
    (process cfg ge gs claim).confidence = 0 ∧
    (process cfg ge gs claim).evidence_summary = "No sources found to evaluate this claim." ∧
    process cfg ge gs claim = process cfg ge2 gs2 claim := by
  have hp : ∀ (a b : Gen), process cfg a b claim = createInsufficientEvidenceResult claim := by
    intro a b
    simp only [process]
    rw [if_pos h]
  refine ⟨hp ge gs, ?_, ?_, ?_, (hp ge gs).trans (hp ge2 gs2).symm⟩ <;> rw [hp ge gs] <;> rfl

/-- Witness for C3 at a concrete claim with no sources. -/
theorem C3_no_sources_witness :
    process cfgSingle genAlwaysFail genAlwaysFail claimNoSources =
      createInsufficientEvidenceResult claimNoSources :=
  (C3_no_sources cfgSingle genAlwaysFail genAlwaysFail genAlwaysFail genAlwaysFail
    claimNoSources rfl).1

/-- C6 counterexample: with a registered explicit provider name
("ollama_default") and a prompt whose bias risk is 0.8 (≥ 0.3), the
bias-aware router ignores the explicit name and returns the first registered
safe provider instead. -/
theorem C6_counterexample :
    ("ollama_default" ∈ ["ollama_default", "claude_default"]) ∧
    assessBiasRisk "the berlin wall fell in 1989" = 4/5 ∧
    selectBiasAwareProvider ["ollama_default", "claude_default"] none (some "ollama_default")
      (assessBiasRisk "the berlin wall fell in 1989") = some "claude_default" := by
  have hrisk : assessBiasRisk "the berlin wall fell in 1989" = 4/5 := by
    have h1 : countSensitiveMatches (pyLower "the berlin wall fell in 1989") = 1 := by decide
    have h2 : anyHighRisk highRiskPatterns (pyLower "the berlin wall fell in 1989") = true := by
      decide
    simp [assessBiasRisk, h1, h2]
  refine ⟨by decide, hrisk, ?_⟩
  rw [hrisk]
  simp only [selectBiasAwareProvider]
  rw [if_neg (by norm_num)]
  rfl

theorem firstRegistered_eq_none (providers : List String) :
    ∀ (order : List String), (∀ q ∈ order, q ∉ providers) →
      firstRegistered providers order = none
  | [], _ => rfl
  | q :: rest, h => by
    simp only [firstRegistered]
    rw [if_neg (h q (List.mem_cons_self q rest))]
    exact firstRegistered_eq_none providers rest (fun x hx => h x (List.mem_cons_of_mem q hx))

/-- C6 (amended): the router honours a registered explicit provider name
whenever the bias risk is below 0.3, and also under high bias risk when no
safe default provider is registered; a registered safe provider takes
precedence over the explicit name once bias risk reaches 0.3. -/
theorem C6_explicit_provider (providers : List String) (agent_name : Option String)
    (p : String) (bias_risk : ℚ) (hreg : p ∈ providers)
    (h : bias_risk < 3/10 ∨ ∀ q ∈ safeProviders, q ∉ providers) :
    selectBiasAwareProvider providers agent_name (some p) bias_risk = some p := by
  have hsel : selectProvider providers agent_name (some p) = some p := by
    simp only [selectProvider]
    rw [if_pos hreg]
  by_cases hr : bias_risk < 3/10
  · simp only [selectBiasAwareProvider]
    rw [if_pos hr]
    exact hsel
  · rcases h with h | h
    · exact absurd h hr
    · simp only [selectBiasAwareProvider]
      rw [if_neg hr, firstRegistered_eq_none providers safeProviders h]
      exact hsel

/-- Witness for C6 (amended): a registered explicit provider and zero bias
risk yield that provider. -/
theorem C6_explicit_provider_witness :
    selectBiasAwareProvider ["ollama_default"] none (some "ollama_default") 0 =
      some "ollama_default" :=
  C6_explicit_provider ["ollama_default"] none "ollama_default" 0 (by decide)
    (Or.inl (by norm_num))

theorem foldl_count_eq (p : String → Bool) : ∀ (l : List String) (n : Nat),
    l.foldl (fun acc kw => if p kw then acc + 1 else acc) n = n + (l.filter p).length
  | [], n => by simp
  | kw :: rest, n => by
    cases hp : p kw <;>
      simp [List.foldl_cons, List.filter_cons, hp, foldl_count_eq p rest]
    omega

theorem anyHighRisk_eq : ∀ (pats : List (String × String)) (s : String),
    anyHighRisk pats s = pats.any (fun p => matchesDotStar p.1 p.2 s)
  | [], _ => rfl
  | p :: rest, s => by
    simp only [anyHighRisk, List.any_cons]
    cases hm : matchesDotStar p.1 p.2 s
    · simp [hm, anyHighRisk_eq rest s]
    · simp [hm]

/-- C7 counterexample: the lower-cased text "tiananmen 1989" matches the
designated high-risk compound pattern `tiananmen.*1989` yet scores risk 0,
not 0.8, because it contains none of the sensitive keywords (the keyword is
"tiananmen square") and the zero-hit branch fires first. -/
theorem C7_counterexample :
    anyHighRisk highRiskPatterns (pyLower "tiananmen 1989") = true ∧
    assessBiasRisk "tiananmen 1989" = 0 ∧ ((0 : ℚ) ≠ 4/5) := by
  have h1 : countSensitiveMatches (pyLower "tiananmen 1989") = 0 := by decide
  refine ⟨by decide, ?_, by norm_num⟩
  simp [assessBiasRisk, h1]

/-- C7 (amended): the bias risk assessor realises exactly the guarded closed
form — 0 for zero keyword hits; for at least one hit, 0.8 if a high-risk
compound pattern matches and min(0.3 × hit_count, 0.7) otherwise. -/
theorem C7_risk_closed_form (content : String) :
    assessBiasRisk content = biasRiskSpecForm content := by
  simp only [assessBiasRisk, biasRiskSpecForm, countSensitiveMatches,
    foldl_count_eq, anyHighRisk_eq, zero_add]

/-- C8 counterexample: for a source with empty content the basic heuristic
produces `supports_claim = false`, not the neutral `null` that the claimed
invariant requires for an undeterminable case. -/
theorem C8_counterexample :
    srcEmptyContent.content = "" ∧
    (basicAnalyzeSingleSource claimNoSources srcEmptyContent).supports_claim ≠ none ∧
    (basicAnalyzeSingleSource claimNoSources srcEmptyContent).supports_claim = some false := by
  refine ⟨rfl, by decide, by decide⟩

/-- C8 (amended): the LLM-parse path keeps the neutral state — an assessment
label other than SUPPORTS/CONTRADICTS yields `supports = none` — while the
basic heuristic fallback returns a definite false (never null) for empty
content and for insufficient word overlap. -/
theorem C8_neutral_handling :
    (∀ (a : EvidenceAnalysis) (line : String),
        pyStartsWith (pyStrip line) "ASSESSMENT:" = true →
        pyUpper (pyStrip (pyAfterColon (pyStrip line))) ≠ "SUPPORTS" →
        pyUpper (pyStrip (pyAfterColon (pyStrip line))) ≠ "CONTRADICTS" →
        (parseLine a line).supports = none) ∧
    (∀ claimText, assessSupportBasic claimText "" = false) ∧
    (∀ claimText content,
        (overlapCount (setWords claimText) (setWords content) : ℚ) ≤
          2/5 * ((setWords claimText).length : ℚ) →
        assessSupportBasic claimText content = false) := by
  refine ⟨?_, ?_, ?_⟩
  · intro a line h1 h2 h3
    simp only [parseLine]
    rw [if_pos h1]
    simp only []
    rw [if_neg h2, if_neg h3]
  · intro c
    simp [assessSupportBasic]
  · intro c content h
    by_cases hc : content = ""
    · simp [assessSupportBasic, hc]
    · simp only [assessSupportBasic]
      rw [if_neg hc]
      have hratio : ¬((if setWords c ≠ [] then
          (overlapCount (setWords c) (setWords content) : ℚ) / ((setWords c).length : ℚ)
          else 0) > 2/5) := by
        by_cases hcw : setWords c = []
        · rw [if_neg (fun hne => hne hcw)]
          norm_num
        · rw [if_pos hcw]
          rw [gt_iff_lt, not_lt]
          have hlen : (0 : ℚ) < ((setWords c).length : ℚ) :=
            Nat.cast_pos.mpr (List.length_pos.mpr hcw)
          rw [div_le_iff₀ hlen]
          linarith
      rw [decide_eq_false hratio]
      simp

/-- Witness for C8 (amended) at concrete inputs: an unrecognized assessment
label, an empty content, and a no-overlap content. -/
theorem C8_neutral_handling_witness :
    (parseLine {} "ASSESSMENT: NEUTRAL").supports = none ∧
    assessSupportBasic "apple was founded" "" = false ∧
    assessSupportBasic "apple was founded in 1976" "zebra crossing" = false :=
  ⟨C8_neutral_handling.1 {} "ASSESSMENT: NEUTRAL" (by decide) (by decide) (by decide),
   C8_neutral_handling.2.1 "apple was founded",
   C8_neutral_handling.2.2 "apple was founded in 1976" "zebra crossing" (by
     have h : overlapCount (setWords "apple was founded in 1976")
         (setWords "zebra crossing") = 0 := by decide
     have h2 : (setWords "apple was founded in 1976").length = 5 := by decide
     rw [h, h2]
     norm_num)⟩

/-- C9 counterexample: in ensemble mode (enabled in configuration, more than
one source) with every provider call failing, the per-source fallback chain
itself raises, so `process` returns an ERROR verdict even though sources
exist — the claimed heuristic degradation does not happen on this path. -/
theorem C9_counterexample :
    (∀ c s, genAlwaysFail c s = .error "GenerationError: all providers failed") ∧
    claimApple.sources ≠ [] ∧
    (process cfgEnsemble genAlwaysFail genAlwaysFail claimApple).verdict = "ERROR" :=
  ⟨fun _ _ => rfl, by simp [claimApple], rfl⟩

/-- C9 (amended): with ensemble voting disabled, if every provider call
raises then evidence analysis returns exactly one Evidence per source in
input order (the basic heuristic per source), and `process` on a claim with
sources returns a non-ERROR verdict. -/
theorem C9_fallback (cfg : OracleConfig) (ge gs : Gen) (claim : Claim)
    (hens : cfg.enableEnsemble = false) (hne : claim.sources ≠ [])
    (hfail : ∀ c s, ∃ msg, gs c s = Except.error msg) :
    llmAnalyzeEvidence gs claim claim.sources =
      claim.sources.map (basicAnalyzeSingleSource claim) ∧
    (llmAnalyzeEvidence gs claim claim.sources).length = claim.sources.length ∧
    (process cfg ge gs claim).verdict ≠ "ERROR" := by
  have hmap : llmAnalyzeEvidence gs claim claim.sources =
      claim.sources.map (basicAnalyzeSingleSource claim) := by
    simp only [llmAnalyzeEvidence]
    apply List.map_congr_left
    intro s _
    rcases hfail claim s with ⟨msg, hm⟩
    simp [analyzeSingleSource, hm]
  refine ⟨hmap, by rw [hmap, List.length_map], ?_⟩
  have hstage : ∃ evl, analysisStage cfg ge gs claim claim.sources = .ok evl := by
    simp only [analysisStage, hens, Bool.false_and, Bool.and_false]
    cases hL : cfg.hasLLM
    · simp
    · simp
  rcases hstage with ⟨evl, hevl⟩
  simp only [process]
  rw [if_neg hne, hevl]
  intro hcontra
  exact generateVerdict_fst_ne_error evl ((verdict_value_eq_error _).mp hcontra)

/-- Witness for C9 (amended) at a concrete two-source claim with all
provider calls failing and ensemble voting disabled. -/
theorem C9_fallback_witness :
    llmAnalyzeEvidence genAlwaysFail claimApple claimApple.sources =
      claimApple.sources.map (basicAnalyzeSingleSource claimApple) ∧
    (llmAnalyzeEvidence genAlwaysFail claimApple claimApple.sources).length =
      claimApple.sources.length ∧
    (process cfgSingle genAlwaysFail genAlwaysFail claimApple).verdict ≠ "ERROR" :=
  C9_fallback cfgSingle genAlwaysFail genAlwaysFail claimApple rfl (by simp [claimApple])
    (fun _ _ => ⟨"GenerationError: all providers failed", rfl⟩)

end Skeptic
